import Mathlib

/-!
Verification of `crowdsourcing/crowdsourcing.py` (Python 2): a shallow
embedding of its four operations — training exporter `train_geojson`,
target exporter `target_geojson`, `join_two_geojsons`, `split_geojson` —
together with proofs of the specification's claims about them.

Conventions of the embedding:
* Python floats (confidence scores, the split ratio) are modelled as `ℚ`.
* SQL query execution is modelled by evaluating the query's relational
  meaning over an explicit database value (three tables, cross join +
  filter + order + limit), since the driver itself is an external
  collaborator.
* The external geometry decoder (`shapely.wkb.loads`) and the geojson
  text parser (`geojson.load`) are out-of-scope collaborators and are
  passed in as function parameters.
* File contents are modelled as association lists from path to document;
  Python exceptions are an explicit error type threaded as
  `FS × Option PyError` (state unchanged on error) or `Except`.
-/

/-- Python runtime errors relevant to this module. -/
inductive PyError
  /-- `NameError: name '<n>' is not defined`. -/
  | nameError (n : String)
  /-- `IndexError` — e.g. `str.format` with fewer arguments than `{}` slots. -/
  | indexError
  /-- `KeyError` from indexing a dict with a missing key. -/
  | keyError (k : String)
  /-- A parse failure raised by `geojson.load` on malformed input. -/
  | valueError
  /-- A geometry decode failure raised by `shapely.wkb.loads`. -/
  | decodeError (msg : String)
  /-- A database error (e.g. the driver rejecting malformed SQL). -/
  | dbError
  deriving Repr, DecidableEq

/-- A Python value, as far as this module's locals need. -/
inductive PyVal
  | vstr (s : String)
  | vnum (q : ℚ)
  | vint (n : Int)
  deriving Repr, DecidableEq

/-- Python 2 `round`: round to nearest integer, ties away from zero
(`round(2.5) == 3.0`, `round(-2.5) == -3.0`); composed with `int(...)`
this is exactly the integer below. -/
def pyround (x : ℚ) : ℤ :=
  if 0 ≤ x then ⌊x + 1/2⌋ else ⌈x - 1/2⌉

/-- The effective index of a Python slice bound `k` on a sequence of
length `n`: negative indices count from the end, and the result is
clamped into `[0, n]`. `s[0:k]` keeps the first `pySliceIdx k n`
elements and `s[k:]` drops them. -/
def pySliceIdx (k : ℤ) (n : ℕ) : ℕ :=
  if k < 0 then ((n : ℤ) + k).toNat else min k.toNat n

/-- `split_geojson` (source lines 185–192), at the object level: read the
input collection's `features`, compute `no_features_1 =
int(round(ratio*no_features))`, and slice: output 1 is
`features[0:no_features_1]`, output 2 is `features[no_features_1:]`.
The two file writes serialize exactly these two lists. -/
def split_geojson (features : List α) (r : ℚ) : List α × List α :=
  let no_features : ℕ := features.length
  let no_features_1 : ℤ := pyround (r * no_features)
  (features.take (pySliceIdx no_features_1 no_features),
   features.drop (pySliceIdx no_features_1 no_features))

/-- A parsed top-level geojson object as `join_two_geojsons` sees it: a
dict that may or may not have a `features` entry (a list of `α`), plus
whatever other top-level entries it carries (e.g. a `crs` member). -/
structure GeoObj (α : Type) where
  features : Option (List α)
  meta : List (String × String)
  deriving Repr, DecidableEq

/-- Dict access `obj['features']`: `KeyError` when absent. -/
def getFeatures (o : GeoObj α) : Except PyError (List α) :=
  match o.features with
  | some fs => .ok fs
  | none => .error (.keyError "features")

/-- `geojson.load` on file contents: the external parser either yields a
top-level object or raises. -/
def geojsonLoad (parse : String → Option (GeoObj α)) (contents : String) :
    Except PyError (GeoObj α) :=
  match parse contents with
  | some o => .ok o
  | none => .error .valueError

/-- `join_two_geojsons` (source lines 156–169): load both files, read
both `features` members, concatenate (`feat_final`), store the result
back into the first object (`feat_collection_1['features'] =
feat_final`) and return that object — it is what `geojson.dump` writes.
An error at any step aborts before the output file is opened. -/
def join_two_geojsons (parse : String → Option (GeoObj α))
    (contents_1 contents_2 : String) : Except PyError (GeoObj α) := do
  let feat_collection_1 ← geojsonLoad parse contents_1
  let feat_collection_2 ← geojsonLoad parse contents_2
  let f1 ← getFeatures feat_collection_1
  let f2 ← getFeatures feat_collection_2
  let feat_final := f1 ++ f2
  .ok { feat_collection_1 with features := some feat_final }

/-! ## Database model and query semantics -/

/-- A row of `<schema>.feature`: identifier, hex-encoded WKB geometry,
foreign keys into `tag_type` and `overlay`, optional confidence score
(NULL until reviewed) and total vote count. -/
structure FeatureRow where
  id : ℕ
  feature : String
  type_id : ℕ
  overlay_id : ℕ
  score : Option ℚ
  num_votes_total : ℤ
  deriving Repr, DecidableEq

/-- A row of `tag_type`: class identifier and class name. -/
structure TagType where
  id : ℕ
  name : String
  deriving Repr, DecidableEq

/-- A row of `overlay`: image identifier and catalog id. -/
structure Overlay where
  id : ℕ
  catalogid : String
  deriving Repr, DecidableEq

/-- The campaign database visible to the exporters' queries. -/
structure TomnodDB where
  features : List FeatureRow
  tag_types : List TagType
  overlays : List Overlay
  deriving Repr, DecidableEq

/-- SQL `feature.score >= min_score` under three-valued logic: a NULL
score makes the comparison unknown, so the row is not selected. -/
def scoreGeB (score : Option ℚ) (min_score : ℚ) : Bool :=
  match score with
  | some s => decide (min_score ≤ s)
  | none => false

/-- `ORDER BY feature.score DESC` as a total preorder on the key. The
database's DESC ordering puts NULL keys first; rows passing the
training filter all have non-NULL scores, so only the numeric branch is
exercised there. -/
def scoreDescLe (x y : Option ℚ) : Bool :=
  match x, y with
  | none, _ => true
  | some _, none => false
  | some a, some b => decide (b ≤ a)

/-- Row ordering used by the training query's `ORDER BY`. -/
def trainOrder (a b : FeatureRow) : Prop := scoreDescLe a.score b.score = true

instance : DecidableRel trainOrder := fun a b => by
  unfold trainOrder; infer_instance

instance : IsTotal FeatureRow trainOrder := by
  constructor
  intro a b
  unfold trainOrder scoreDescLe
  cases ha : a.score <;> cases hb : b.score <;> simp
  exact le_total _ _

instance : IsTrans FeatureRow trainOrder := by
  constructor
  intro a b c
  unfold trainOrder scoreDescLe
  cases a.score <;> cases b.score <;> cases c.score <;> simp
  exact fun h h' => le_trans h' h

/-- The `FROM {schema}.feature, tag_type, overlay WHERE ...` part of the
training query (source lines 42–49): cross join of the three tables
filtered by the join conditions, the catalog id, the class name, and the
score/vote thresholds. Duplicate matches would duplicate rows, exactly
as in SQL. -/
def trainFiltered (db : TomnodDB) (cat_id class_name : String)
    (min_score : ℚ) (min_votes : ℤ) : List FeatureRow :=
  db.features.flatMap fun f =>
    db.tag_types.flatMap fun t =>
      db.overlays.filterMap fun o =>
        if f.type_id = t.id ∧ f.overlay_id = o.id ∧
           o.catalogid = cat_id ∧ t.name = class_name ∧
           scoreGeB f.score min_score = true ∧
           min_votes ≤ f.num_votes_total
        then some f else none

/-- The full training query (source lines 42–57): filter, `ORDER BY
feature.score DESC`, `LIMIT max_number`. -/
def trainQueryRows (db : TomnodDB) (cat_id class_name : String)
    (min_score : ℚ) (min_votes : ℤ) (max_number : ℕ) : List FeatureRow :=
  (List.insertionSort trainOrder
    (trainFiltered db cat_id class_name min_score min_votes)).take max_number

/-- `DB.db_fetch_array` result for the training query: the selected
columns `feature.id, feature.feature` of each retrieved row. -/
def trainFetch (db : TomnodDB) (cat_id class_name : String)
    (min_score : ℚ) (min_votes : ℤ) (max_number : ℕ) : List (ℕ × String) :=
  (trainQueryRows db cat_id class_name min_score min_votes max_number).map
    fun f => (f.id, f.feature)

/-! ## Row → geojson Feature conversion -/

/-- The polygon object returned by `shapely.wkb.loads`: an exterior
ring of coordinate pairs, plus interior rings that the code ignores. -/
structure Polygon where
  exterior : List (ℚ × ℚ)
  interiors : List (List (ℚ × ℚ))
  deriving Repr, DecidableEq

/-- A geojson property value as produced here (only strings occur). -/
inductive JVal
  | jstr (s : String)
  | jnum (q : ℚ)
  deriving Repr, DecidableEq

/-- A geojson Feature: a Polygon geometry (a list of rings) and a
properties dict, modelled as an insertion-ordered association list. -/
structure Feature where
  coordinates : List (List (ℚ × ℚ))
  properties : List (String × JVal)
  deriving Repr, DecidableEq

/-- Loop body of the training exporter (source lines 61–70): decode the
hex geometry, wrap the exterior ring in one pair of brackets, and build
the Feature with the caller-supplied `class_name` and `cat_id`. -/
def rowToTrainFeature (decode : String → Except PyError Polygon)
    (class_name cat_id : String) : ℕ × String → Except PyError Feature
  | (feature_id, coords_in_hex) => do
  let polygon ← decode coords_in_hex
  let coords := [polygon.exterior]
  .ok { coordinates := coords,
        properties := [("id", .jstr (toString feature_id)),
                       ("class_name", .jstr class_name),
                       ("image_name", .jstr cat_id)] }

/-- Loop body of the target exporter (source lines 126–135): identical
except that the class name is the third column of the row. -/
def rowToTargetFeature (decode : String → Except PyError Polygon)
    (cat_id : String) : ℕ × String × String → Except PyError Feature
  | (feature_id, coords_in_hex, class_name) => do
  let polygon ← decode coords_in_hex
  let coords := [polygon.exterior]
  .ok { coordinates := coords,
        properties := [("id", .jstr (toString feature_id)),
                       ("class_name", .jstr class_name),
                       ("image_name", .jstr cat_id)] }

/-! ## The exporters as state transformers on the file store -/

/-- The persisted geojson files: path ↦ FeatureCollection written there. -/
abbrev FileStore : Type := List (String × List Feature)

/-- `with open(path, 'wb'): geojson.dump(collection, f)` — fully replace
the file at `path`. -/
def fsWrite (fs : FileStore) (path : String) (doc : List Feature) : FileStore :=
  (path, doc) :: fs.filter fun e => e.1 ≠ path

/-- Look up the document at `path`. -/
def fsRead (fs : FileStore) (path : String) : Option (List Feature) :=
  (fs.find? fun e => e.1 = path).map Prod.snd

/-- `train_geojson` (source lines 14–78): build the query, fetch, convert
every row in memory (a decode failure raises here, before any file is
touched), then open the output file and dump the collection. Returns the
updated file store and the raised exception, if any. -/
def train_geojson (decode : String → Except PyError Polygon)
    (db : TomnodDB) (_schema cat_id : String) (max_number : ℕ)
    (output_file : String) (class_name : String)
    (min_score : ℚ) (min_votes : ℤ) (fs : FileStore) :
    FileStore × Option PyError :=
  match (trainFetch db cat_id class_name min_score min_votes
      max_number).mapM (rowToTrainFeature decode class_name cat_id) with
  | .error e => (fs, some e)
  | .ok geojson_features => (fsWrite fs output_file geojson_features, none)

/-! ## The target exporter

`target_geojson` (source lines 81–143) builds its query string with
`.format(schema, cat_id, min_score, max_score, max_number)` (lines
116–120). Evaluating those five arguments resolves each name in the
function's local scope; `min_score` is not among `target_geojson`'s
parameters or locals (they are `schema`, `cat_id`, `max_number`,
`output_file`, `max_score`, `max_votes`) and is not a module global, so
Python raises `NameError` there. Were the arguments evaluable, `.format`
itself would raise `IndexError`: the query text (lines 107–116) contains
six `{}` placeholders (including the stray clause `AND {}.feature,
overlay` on line 110) but only five arguments are supplied. -/

/-- The local scope of `target_geojson` at the query-building statement:
its six parameters, in order. -/
def targetLocals (schema cat_id : String) (max_number : ℕ)
    (output_file : String) (max_score : ℚ) (max_votes : ℤ) :
    List (String × PyVal) :=
  [("schema", .vstr schema), ("cat_id", .vstr cat_id),
   ("max_number", .vint max_number), ("output_file", .vstr output_file),
   ("max_score", .vnum max_score), ("max_votes", .vint max_votes)]

/-- Python name resolution against a scope: `NameError` when absent. -/
def evalName (locals : List (String × PyVal)) (n : String) :
    Except PyError PyVal :=
  match locals.lookup n with
  | some v => .ok v
  | none => .error (.nameError n)

/-- The five argument expressions of the `.format` call on source lines
116–120, evaluated left to right in `target_geojson`'s scope. -/
def targetFormatArgs (locals : List (String × PyVal)) :
    Except PyError (List PyVal) := do
  let a1 ← evalName locals "schema"
  let a2 ← evalName locals "cat_id"
  let a3 ← evalName locals "min_score"
  let a4 ← evalName locals "max_score"
  let a5 ← evalName locals "max_number"
  .ok [a1, a2, a3, a4, a5]

/-- Number of `{}` placeholders in the target query text
(source lines 107–116). -/
def targetQueryPlaceholders : ℕ := 6

/-- `str.format` with positional `{}` slots: `IndexError` when there are
more slots than arguments. The formatted text itself is irrelevant
downstream (the query never executes), so only success is tracked. -/
def pyFormat (placeholders : ℕ) (args : List PyVal) : Except PyError Unit :=
  if placeholders ≤ args.length then .ok () else .error .indexError

/-- `target_geojson` (source lines 81–143) as a state transformer on the
file store. The query-string construction runs first; on any exception
the function aborts with the file store untouched. The success branch
would fetch and convert (lines 122–141, via `rowToTargetFeature`) — but
the constructed SQL is itself malformed (`AND {}.feature, overlay`), so
the fetch is modelled as the driver rejecting the query. No continuation
of this branch is observable: construction always raises first. -/
def target_geojson (_decode : String → Except PyError Polygon)
    (_db : TomnodDB) (schema cat_id : String) (max_number : ℕ)
    (output_file : String) (max_score : ℚ) (max_votes : ℤ)
    (fs : FileStore) : FileStore × Option PyError :=
  let locals :=
    targetLocals schema cat_id max_number output_file max_score max_votes
  let query : Except PyError Unit := do
    let args ← targetFormatArgs locals
    pyFormat targetQueryPlaceholders args
  match query with
  | .error e => (fs, some e)
  | .ok () => (fs, some .dbError)

/-! ## Concrete values used by the witnesses -/

/-- A concrete decoded polygon. -/
def polyW : Polygon :=
  { exterior := [(0, 0), (1, 0), (1, 1), (0, 0)], interiors := [] }

/-- A decoder succeeding on every hex string with `polyW`. -/
def decodeOkW : String → Except PyError Polygon := fun _ => .ok polyW

/-- A decoder failing on every hex string. -/
def decodeFailW : String → Except PyError Polygon :=
  fun _ => .error (.decodeError "bad WKB")

/-- A feature row matching the witness query below. -/
def rowW : FeatureRow :=
  { id := 7, feature := "0103", type_id := 1, overlay_id := 2,
    score := some 1, num_votes_total := 3 }

/-- A one-feature campaign database. -/
def dbW : TomnodDB :=
  { features := [rowW],
    tag_types := [{ id := 1, name := "building" }],
    overlays := [{ id := 2, catalogid := "cat1" }] }

/-- The Feature emitted for `rowW` by the training conversion under
`decodeOkW`, class `building`, image `cat1`. -/
def featW : Feature :=
  { coordinates := [polyW.exterior],
    properties := [("id", .jstr "7"), ("class_name", .jstr "building"),
                   ("image_name", .jstr "cat1")] }

/-- The Feature emitted for row `(3, "ab")` by the training conversion
under `decodeOkW`, class `road`, image `cat9`. -/
def featW6 : Feature :=
  { coordinates := [polyW.exterior],
    properties := [("id", .jstr "3"), ("class_name", .jstr "road"),
                   ("image_name", .jstr "cat9")] }

/-- A parser recognising two fixed files, used by the C4 witness. -/
def parseW : String → Option (GeoObj ℕ) := fun s =>
  if s = "a.geojson" then
    some { features := some [1, 2], meta := [("crs", "epsg4326")] }
  else if s = "b.geojson" then
    some { features := some [3], meta := [] }
  else none

/-! ## Helper lemmas -/

lemma pyround_nonneg {x : ℚ} (hx : 0 ≤ x) : 0 ≤ pyround x := by
  unfold pyround
  rw [if_pos hx, Int.le_floor]
  push_cast
  linarith

lemma pyround_le_of_le {x : ℚ} {n : ℕ} (h0 : 0 ≤ x) (hn : x ≤ n) :
    pyround x ≤ n := by
  unfold pyround
  rw [if_pos h0]
  have h : ⌊x + 1/2⌋ < (n : ℤ) + 1 := by
    rw [Int.floor_lt]
    push_cast
    linarith
  omega

lemma pyround_natCast (n : ℕ) : pyround (n : ℚ) = n := by
  unfold pyround
  rw [if_pos (by positivity)]
  rw [Int.floor_eq_iff]
  push_cast
  constructor <;> linarith

lemma pyround_add_half (k : ℕ) : pyround ((k : ℚ) + 1/2) = k + 1 := by
  unfold pyround
  rw [if_pos (by positivity)]
  rw [Int.floor_eq_iff]
  push_cast
  constructor <;> linarith

lemma pySliceIdx_eq {k : ℤ} {n : ℕ} (h0 : 0 ≤ k) (hn : k ≤ n) :
    pySliceIdx k n = k.toNat := by
  unfold pySliceIdx
  rw [if_neg (by omega)]
  omega

lemma split_geojson_cover (F : List α) (r : ℚ) :
    (split_geojson F r).1 ++ (split_geojson F r).2 = F :=
  List.take_append_drop _ F

/-! ## Claims about `split_geojson` -/

/-- C3: For every FeatureCollection `F` and ratio `r ∈ [0,1]`,
`split_geojson` partitions losslessly: output 1 followed by output 2 is
exactly `F` (same elements, same order), output 1 has
`round(r * len(F))` elements, `r = 0` gives an empty output 1 and
output 2 = `F`, `r = 1` gives output 1 = `F` and an empty output 2, and
an empty input gives two empty outputs. -/
theorem split_geojson_lossless (F : List α) (r : ℚ)
    (h0 : 0 ≤ r) (h1 : r ≤ 1) :
    (split_geojson F r).1 ++ (split_geojson F r).2 = F ∧
    ((split_geojson F r).1.length : ℤ) = pyround (r * F.length) ∧
    (r = 0 → (split_geojson F r).1 = [] ∧ (split_geojson F r).2 = F) ∧
    (r = 1 → (split_geojson F r).1 = F ∧ (split_geojson F r).2 = []) ∧
    (F = [] → (split_geojson F r).1 = [] ∧ (split_geojson F r).2 = []) := by
  have hx0 : 0 ≤ r * (F.length : ℚ) := mul_nonneg h0 (by positivity)
  have hxn : r * (F.length : ℚ) ≤ (F.length : ℚ) := by
    calc r * (F.length : ℚ) ≤ 1 * (F.length : ℚ) :=
          mul_le_mul_of_nonneg_right h1 (by positivity)
      _ = (F.length : ℚ) := one_mul _
  have hk0 : 0 ≤ pyround (r * F.length) := pyround_nonneg hx0
  have hkn : pyround (r * F.length) ≤ (F.length : ℤ) := pyround_le_of_le hx0 hxn
  have hsplit : split_geojson F r =
      (F.take (pyround (r * F.length)).toNat,
       F.drop (pyround (r * F.length)).toNat) := by
    simp only [split_geojson]
    rw [pySliceIdx_eq hk0 hkn]
  refine ⟨split_geojson_cover F r, ?_, ?_, ?_, ?_⟩
  · rw [hsplit]
    simp only [List.length_take]
    omega
  · intro hr
    subst hr
    have h0' : pyround ((0 : ℚ) * F.length) = 0 := by
      rw [zero_mul]
      simpa using pyround_natCast 0
    rw [hsplit, h0']
    simp
  · intro hr
    subst hr
    have h1' : pyround ((1 : ℚ) * F.length) = F.length := by
      rw [one_mul]
      exact pyround_natCast _
    rw [hsplit, h1']
    simp
  · intro hF
    subst hF
    rw [hsplit]
    simp

/-- Witness for C3: four features at ratio 1/4. -/
theorem split_geojson_lossless_witness :
    (0 : ℚ) ≤ 1/4 ∧ (1/4 : ℚ) ≤ 1 ∧
    (split_geojson [0, 1, 2, 3] (1/4 : ℚ)).1 ++
      (split_geojson [0, 1, 2, 3] (1/4 : ℚ)).2 = [0, 1, 2, 3] ∧
    ((split_geojson [0, 1, 2, 3] (1/4 : ℚ)).1.length : ℤ) =
      pyround ((1/4 : ℚ) * ([0, 1, 2, 3] : List ℕ).length) :=
  ⟨by norm_num, by norm_num,
   (split_geojson_lossless [0, 1, 2, 3] (1/4 : ℚ) (by norm_num) (by norm_num)).1,
   (split_geojson_lossless [0, 1, 2, 3] (1/4 : ℚ) (by norm_num) (by norm_num)).2.1⟩

/-- C7: For a ratio outside `[0,1]` the splitter still succeeds (it is a
total function of the collection and ratio) and the two outputs, taken
together, still cover the input's features exactly: Python slice
semantics clamp the degenerate split index instead of raising. -/
theorem split_geojson_out_of_range (F : List α) (r : ℚ)
    (h : r < 0 ∨ 1 < r) :
    (split_geojson F r).1 ++ (split_geojson F r).2 = F :=
  split_geojson_cover F r

/-- Witness for C7: ratio 3/2 on three features. -/
theorem split_geojson_out_of_range_witness :
    ((3/2 : ℚ) < 0 ∨ 1 < (3/2 : ℚ)) ∧
    (split_geojson [10, 20, 30] (3/2 : ℚ)).1 ++
      (split_geojson [10, 20, 30] (3/2 : ℚ)).2 = [10, 20, 30] :=
  ⟨Or.inr (by norm_num),
   split_geojson_out_of_range [10, 20, 30] (3/2 : ℚ) (Or.inr (by norm_num))⟩

/-- C10: The split index rounds half away from zero (Python 2 `round`),
not half to even: whenever `r * len(F)` is exactly `k + 1/2` for a
natural `k` (and `r` is a valid ratio), output 1 receives `k + 1`
features. -/
theorem split_geojson_round_half_away (F : List α) (r : ℚ) (k : ℕ)
    (h0 : 0 ≤ r) (h1 : r ≤ 1) (hh : r * F.length = (k : ℚ) + 1/2) :
    (split_geojson F r).1.length = k + 1 := by
  have hkn : k + 1 ≤ F.length := by
    have hle : (k : ℚ) + 1/2 ≤ (F.length : ℚ) := by
      rw [← hh]
      calc r * (F.length : ℚ) ≤ 1 * (F.length : ℚ) :=
            mul_le_mul_of_nonneg_right h1 (by positivity)
        _ = (F.length : ℚ) := one_mul _
    have hlt : (k : ℚ) < (F.length : ℚ) := by linarith
    exact_mod_cast Nat.succ_le_of_lt (by exact_mod_cast hlt)
  have hp : pyround (r * F.length) = (k : ℤ) + 1 := by
    rw [hh]
    exact pyround_add_half k
  simp only [split_geojson]
  rw [hp, pySliceIdx_eq (by omega) (by exact_mod_cast hkn)]
  rw [List.length_take]
  omega

/-- Witness for C10: five features at ratio 1/2 — `0.5 * 5 = 2.5`, so
output 1 gets three features, not two. -/
theorem split_geojson_round_half_away_witness :
    (0 : ℚ) ≤ 1/2 ∧ (1/2 : ℚ) ≤ 1 ∧
    (1/2 : ℚ) * ([0, 1, 2, 3, 4] : List ℕ).length = (2 : ℚ) + 1/2 ∧
    (split_geojson [0, 1, 2, 3, 4] (1/2 : ℚ)).1.length = 2 + 1 :=
  ⟨by norm_num, by norm_num, by norm_num,
   split_geojson_round_half_away [0, 1, 2, 3, 4] (1/2 : ℚ) 2
     (by norm_num) (by norm_num) (by norm_num)⟩

/-! ## Claims about `join_two_geojsons` -/

/-- C4: When both inputs parse to objects carrying a `features` list,
the joined document is collection 1's object with its feature sequence
replaced by collection 1's features followed by collection 2's features
— order preserved, nothing deduplicated, and all other top-level
metadata (e.g. a `crs` member) taken from collection 1. -/
theorem join_two_geojsons_concat (parse : String → Option (GeoObj α))
    (contents_1 contents_2 : String) (A B : GeoObj α) (fa fb : List α)
    (hA : parse contents_1 = some A) (hB : parse contents_2 = some B)
    (hfa : A.features = some fa) (hfb : B.features = some fb) :
    join_two_geojsons parse contents_1 contents_2 =
      .ok { A with features := some (fa ++ fb) } := by
  unfold join_two_geojsons geojsonLoad getFeatures
  rw [hA, hB]
  simp [bind, Except.bind, hfa, hfb]

/-- C8: `join_two_geojsons` fails (yielding no output document) exactly
when one of the inputs fails to parse as geojson or parses to an object
without a `features` member; on two parseable inputs that both carry
`features`, no parse/access-stage failure occurs. -/
theorem join_two_geojsons_error_iff (parse : String → Option (GeoObj α))
    (contents_1 contents_2 : String) :
    (∃ e, join_two_geojsons parse contents_1 contents_2 = .error e) ↔
      (parse contents_1 = none ∨
       (∃ o, parse contents_1 = some o ∧ o.features = none) ∨
       parse contents_2 = none ∨
       (∃ o, parse contents_2 = some o ∧ o.features = none)) := by
  unfold join_two_geojsons geojsonLoad getFeatures
  rcases h1 : parse contents_1 with _ | o1 <;>
    rcases h2 : parse contents_2 with _ | o2 <;>
      simp [h1, h2, bind, Except.bind]
  rcases hf1 : o1.features with _ | fa <;>
    rcases hf2 : o2.features with _ | fb <;>
      simp [hf1, hf2]

/-! ## Helper lemmas about the training query and conversion -/

lemma of_mem_trainFiltered {db : TomnodDB} {cat_id class_name : String}
    {min_score : ℚ} {min_votes : ℤ} {f : FeatureRow}
    (h : f ∈ trainFiltered db cat_id class_name min_score min_votes) :
    (∃ t ∈ db.tag_types, f.type_id = t.id ∧ t.name = class_name) ∧
    (∃ o ∈ db.overlays, f.overlay_id = o.id ∧ o.catalogid = cat_id) ∧
    (∃ s, f.score = some s ∧ min_score ≤ s) ∧
    min_votes ≤ f.num_votes_total := by
  unfold trainFiltered at h
  simp only [List.mem_flatMap, List.mem_filterMap] at h
  obtain ⟨f', _, t, ht, o, ho, hif⟩ := h
  split at hif
  case isFalse => cases hif
  case isTrue hP =>
    obtain ⟨h1, h2, h3, h4, h5, h6⟩ := hP
    obtain rfl : f' = f := by injection hif
    have hs : ∃ s, f'.score = some s ∧ min_score ≤ s := by
      cases hsc : f'.score with
      | none => rw [hsc] at h5; simp [scoreGeB] at h5
      | some s =>
          rw [hsc] at h5
          simp only [scoreGeB, decide_eq_true_eq] at h5
          exact ⟨s, rfl, h5⟩
    exact ⟨⟨t, ht, h1, h4⟩, ⟨o, ho, h2, h3⟩, hs, h6⟩

lemma mem_trainFiltered_of_mem_trainQueryRows {db : TomnodDB}
    {cat_id class_name : String} {min_score : ℚ} {min_votes : ℤ}
    {max_number : ℕ} {f : FeatureRow}
    (h : f ∈ trainQueryRows db cat_id class_name min_score min_votes max_number) :
    f ∈ trainFiltered db cat_id class_name min_score min_votes := by
  unfold trainQueryRows at h
  exact ((List.perm_insertionSort trainOrder _).mem_iff).1 (List.mem_of_mem_take h)

lemma trainQueryRows_sorted (db : TomnodDB) (cat_id class_name : String)
    (min_score : ℚ) (min_votes : ℤ) (max_number : ℕ) :
    List.Pairwise trainOrder
      (trainQueryRows db cat_id class_name min_score min_votes max_number) :=
  List.Pairwise.sublist (List.take_sublist _ _)
    (List.sorted_insertionSort trainOrder _)

lemma trainQueryRows_length_le (db : TomnodDB) (cat_id class_name : String)
    (min_score : ℚ) (min_votes : ℤ) (max_number : ℕ) :
    (trainQueryRows db cat_id class_name min_score min_votes max_number).length
      ≤ max_number :=
  List.length_take_le _ _

lemma exceptMapM_ok_length {ε α β : Type} {f : α → Except ε β} :
    ∀ {l : List α} {l' : List β}, l.mapM f = .ok l' → l'.length = l.length := by
  intro l
  induction l with
  | nil =>
      intro l' h
      rw [← List.mapM'_eq_mapM] at h
      simp only [List.mapM', pure, Except.pure] at h
      injection h with h
      rw [← h]
      rfl
  | cons a as ih =>
      intro l' h
      rw [← List.mapM'_eq_mapM] at h
      simp only [List.mapM', bind, Except.bind] at h
      cases hfa : f a with
      | error e => rw [hfa] at h; cases h
      | ok b =>
          rw [hfa] at h
          cases hr : List.mapM' f as with
          | error e => rw [hr] at h; cases h
          | ok bs =>
              rw [hr] at h
              simp only [pure, Except.pure] at h
              injection h with h
              rw [List.mapM'_eq_mapM] at hr
              have := ih hr
              rw [← h]
              simp [this]

lemma exceptMapM_error_of_mem {ε α β : Type} {f : α → Except ε β}
    {l : List α} {x : α} {e : ε} (hx : x ∈ l) (hfx : f x = .error e) :
    ∃ e', l.mapM f = .error e' := by
  rw [← List.mapM'_eq_mapM]
  induction l with
  | nil => cases hx
  | cons a as ih =>
      simp only [List.mapM', bind, Except.bind]
      cases hfa : f a with
      | error e0 => exact ⟨e0, rfl⟩
      | ok b =>
          have hxas : x ∈ as := by
            rcases List.mem_cons.1 hx with rfl | hmem
            · rw [hfa] at hfx; cases hfx
            · exact hmem
          obtain ⟨e', he'⟩ := ih hxas
          rw [he']
          exact ⟨e', rfl⟩

lemma target_geojson_raises (decode : String → Except PyError Polygon)
    (db : TomnodDB) (schema cat_id : String) (max_number : ℕ)
    (output_file : String) (max_score : ℚ) (max_votes : ℤ) (fs : FileStore) :
    target_geojson decode db schema cat_id max_number output_file max_score
        max_votes fs = (fs, some (.nameError "min_score")) := rfl

/-! ## Claims about the exporters -/

/-- Witness for C4: joining two concrete collections keeps order,
duplicates nothing, and takes collection 1's `crs` metadata. -/
theorem join_two_geojsons_concat_witness :
    join_two_geojsons parseW "a.geojson" "b.geojson" =
      .ok { features := some [1, 2, 3], meta := [("crs", "epsg4326")] } :=
  join_two_geojsons_concat parseW "a.geojson" "b.geojson"
    { features := some [1, 2], meta := [("crs", "epsg4326")] }
    { features := some [3], meta := [] } [1, 2] [3] rfl rfl rfl rfl

/-- C2: the training query retrieves only rows joined to the requested
class name and catalog id, with a non-NULL score ≥ `min_score` and votes
≥ `min_votes`; it returns at most `max_number` rows, in non-increasing
score order; and when the export succeeds, the written FeatureCollection
has exactly one Feature per retrieved row (hence at most `max_number`). -/
theorem train_export_spec (decode : String → Except PyError Polygon)
    (db : TomnodDB) (schema cat_id class_name output_file : String)
    (min_score : ℚ) (min_votes : ℤ) (max_number : ℕ) :
    (∀ f ∈ trainQueryRows db cat_id class_name min_score min_votes max_number,
       (∃ t ∈ db.tag_types, f.type_id = t.id ∧ t.name = class_name) ∧
       (∃ o ∈ db.overlays, f.overlay_id = o.id ∧ o.catalogid = cat_id) ∧
       (∃ s, f.score = some s ∧ min_score ≤ s) ∧
       min_votes ≤ f.num_votes_total) ∧
    (trainQueryRows db cat_id class_name min_score min_votes
        max_number).length ≤ max_number ∧
    List.Pairwise
      (fun a b => ∀ sa sb, a.score = some sa → b.score = some sb → sb ≤ sa)
      (trainQueryRows db cat_id class_name min_score min_votes max_number) ∧
    (∀ fs, (train_geojson decode db schema cat_id max_number output_file
              class_name min_score min_votes fs).2 = none →
       ∃ feats,
         (train_geojson decode db schema cat_id max_number output_file
             class_name min_score min_votes fs).1
           = fsWrite fs output_file feats ∧
         feats.length = (trainQueryRows db cat_id class_name min_score
             min_votes max_number).length) := by
  refine ⟨?_, trainQueryRows_length_le db cat_id class_name min_score
      min_votes max_number, ?_, ?_⟩
  · intro f hf
    exact of_mem_trainFiltered (mem_trainFiltered_of_mem_trainQueryRows hf)
  · refine List.Pairwise.imp ?_
      (trainQueryRows_sorted db cat_id class_name min_score min_votes
        max_number)
    intro a b hab sa sb hsa hsb
    unfold trainOrder scoreDescLe at hab
    rw [hsa, hsb] at hab
    simpa using hab
  · intro fs h
    unfold train_geojson at h ⊢
    cases hm : (trainFetch db cat_id class_name min_score min_votes
        max_number).mapM (rowToTrainFeature decode class_name cat_id) with
    | error e =>
        rw [hm] at h
        exact Option.noConfusion h
    | ok feats =>
        refine ⟨feats, rfl, ?_⟩
        have hlen := exceptMapM_ok_length hm
        simpa [trainFetch] using hlen

/-- Witness for C2: on the one-feature database the query returns
exactly the matching row and a successful export writes one Feature. -/
theorem train_export_spec_witness :
    trainQueryRows dbW "cat1" "building" 0 0 5 = [rowW] ∧
    (trainQueryRows dbW "cat1" "building" 0 0 5).length ≤ 5 ∧
    ((train_geojson decodeOkW dbW "s" "cat1" 5 "out.geojson" "building"
        0 0 []).2 = none →
      ∃ feats,
        (train_geojson decodeOkW dbW "s" "cat1" 5 "out.geojson" "building"
            0 0 []).1 = fsWrite [] "out.geojson" feats ∧
        feats.length = (trainQueryRows dbW "cat1" "building" 0 0 5).length) :=
  ⟨by decide,
   (train_export_spec decodeOkW dbW "s" "cat1" "building" "out.geojson"
      0 0 5).2.1,
   fun h => (train_export_spec decodeOkW dbW "s" "cat1" "building"
      "out.geojson" 0 0 5).2.2.2 [] h⟩

/-- C5: every Feature either conversion loop can emit has a properties
dict with exactly the keys `id`, `class_name`, `image_name` in that
order, the `id` value is the stringified row identifier, and the
geometry's coordinates are exactly one ring — the decoded exterior. -/
theorem exporter_feature_shape (decode : String → Except PyError Polygon)
    (class_name cat_id : String) :
    (∀ entry feat, rowToTrainFeature decode class_name cat_id entry = .ok feat →
       feat.properties.map Prod.fst = ["id", "class_name", "image_name"] ∧
       feat.properties.lookup "id" = some (.jstr (toString entry.1)) ∧
       ∃ p, decode entry.2 = .ok p ∧ feat.coordinates = [p.exterior]) ∧
    (∀ entry feat, rowToTargetFeature decode cat_id entry = .ok feat →
       feat.properties.map Prod.fst = ["id", "class_name", "image_name"] ∧
       feat.properties.lookup "id" = some (.jstr (toString entry.1)) ∧
       ∃ p, decode entry.2.1 = .ok p ∧ feat.coordinates = [p.exterior]) := by
  constructor
  · rintro ⟨fid, hex⟩ feat h
    simp only [rowToTrainFeature] at h
    cases hd : decode hex with
    | error e => rw [hd] at h; cases h
    | ok p =>
        rw [hd] at h
        simp only [bind, Except.bind, pure, Except.pure] at h
        injection h with h
        subst h
        exact ⟨rfl, rfl, p, rfl, rfl⟩
  · rintro ⟨fid, hex, cls⟩ feat h
    simp only [rowToTargetFeature] at h
    cases hd : decode hex with
    | error e => rw [hd] at h; cases h
    | ok p =>
        rw [hd] at h
        simp only [bind, Except.bind, pure, Except.pure] at h
        injection h with h
        subst h
        exact ⟨rfl, rfl, p, rfl, rfl⟩

/-- Witness for C5: a concrete converted row has exactly the three
property keys and a single-ring geometry. -/
theorem exporter_feature_shape_witness :
    rowToTrainFeature decodeOkW "building" "cat1" (7, "0103") = .ok featW ∧
    featW.properties.map Prod.fst = ["id", "class_name", "image_name"] ∧
    featW.properties.lookup "id" = some (.jstr "7") ∧
    featW.coordinates.length = 1 :=
  ⟨rfl,
   ((exporter_feature_shape decodeOkW "building" "cat1").1 (7, "0103")
      featW rfl).1,
   ((exporter_feature_shape decodeOkW "building" "cat1").1 (7, "0103")
      featW rfl).2.1,
   rfl⟩

/-- C6: the training conversion stamps every emitted Feature with the
caller-supplied class name and catalog id (the retrieved rows carry no
class column to re-read), and decodes the geometry to the polygon's
exterior ring. -/
theorem train_feature_uses_caller_class
    (decode : String → Except PyError Polygon)
    (class_name cat_id : String) (entry : ℕ × String) (feat : Feature)
    (h : rowToTrainFeature decode class_name cat_id entry = .ok feat) :
    feat.properties.lookup "class_name" = some (.jstr class_name) ∧
    feat.properties.lookup "image_name" = some (.jstr cat_id) ∧
    ∃ p, decode entry.2 = .ok p ∧ feat.coordinates = [p.exterior] := by
  obtain ⟨fid, hex⟩ := entry
  simp only [rowToTrainFeature] at h
  cases hd : decode hex with
  | error e => rw [hd] at h; cases h
  | ok p =>
      rw [hd] at h
      simp only [bind, Except.bind, pure, Except.pure] at h
      injection h with h
      subst h
      exact ⟨rfl, rfl, p, rfl, rfl⟩

/-- Witness for C6: converting row `(3, "ab")` for class `road` on image
`cat9` stamps exactly those two caller-supplied values. -/
theorem train_feature_uses_caller_class_witness :
    rowToTrainFeature decodeOkW "road" "cat9" (3, "ab") = .ok featW6 ∧
    featW6.properties.lookup "class_name" = some (.jstr "road") ∧
    featW6.properties.lookup "image_name" = some (.jstr "cat9") :=
  ⟨rfl,
   (train_feature_uses_caller_class decodeOkW "road" "cat9" (3, "ab")
      featW6 rfl).1,
   (train_feature_uses_caller_class decodeOkW "road" "cat9" (3, "ab")
      featW6 rfl).2.1⟩

/-- C9: a geometry-decode failure in either exporter surfaces before the
output file is opened, leaving the file store exactly as it was. For the
training exporter: if any retrieved row's geometry fails to decode, the
call returns an error with the store unchanged. The target exporter
raises during query construction, before any fetch, decode or write, so
its store is likewise always unchanged. -/
theorem exporters_no_write_on_decode_error
    (decode : String → Except PyError Polygon) (db : TomnodDB)
    (schema cat_id class_name output_file : String)
    (min_score max_score : ℚ) (min_votes max_votes : ℤ)
    (max_number : ℕ) (fs : FileStore) :
    ((∃ entry ∈ trainFetch db cat_id class_name min_score min_votes
          max_number, ∃ e, decode entry.2 = .error e) →
      ∃ e', train_geojson decode db schema cat_id max_number output_file
              class_name min_score min_votes fs = (fs, some e')) ∧
    (∃ e', target_geojson decode db schema cat_id max_number output_file
             max_score max_votes fs = (fs, some e')) := by
  constructor
  · rintro ⟨entry, hmem, e, he⟩
    obtain ⟨fid, hex⟩ := entry
    have hfail : rowToTrainFeature decode class_name cat_id (fid, hex)
        = .error e := by
      simp only [rowToTrainFeature]
      rw [he]
      rfl
    obtain ⟨e', he'⟩ := exceptMapM_error_of_mem hmem hfail
    unfold train_geojson
    rw [he']
    exact ⟨e', rfl⟩
  · exact ⟨.nameError "min_score",
      target_geojson_raises decode db schema cat_id max_number output_file
        max_score max_votes fs⟩

/-- Witness for C9: with an always-failing decoder and a database that
retrieves one row, the training export returns the decode error and the
(empty) file store is unchanged. -/
theorem exporters_no_write_on_decode_error_witness :
    ((7, "0103") ∈ trainFetch dbW "cat1" "building" 0 0 5 ∧
      decodeFailW "0103" = .error (.decodeError "bad WKB")) ∧
    (∃ e', train_geojson decodeFailW dbW "s" "cat1" 5 "out.geojson"
        "building" 0 0 [] = ([], some e')) :=
  ⟨⟨by decide, rfl⟩,
   (exporters_no_write_on_decode_error decodeFailW dbW "s" "cat1"
       "building" "out.geojson" 0 0 0 0 5 []).1
     ⟨(7, "0103"), by decide, .decodeError "bad WKB", rfl⟩⟩

/-- C1: the claim states that `target_geojson` retrieves up to
`max_number` features of the image with score ≤ `max_score` and votes ≤
`max_votes`, ordered by score ascending with NULLs first, reading each
row's class name. The code cannot do any of this: building the query
string evaluates the undefined name `min_score` (source line 118), so
every call raises `NameError` before anything is fetched or written —
the theorem derives this outcome for all inputs. (Even with that name
bound, the `.format` call supplies five arguments to six `{}` slots and
the SQL text itself is malformed.) -/
theorem target_geojson_always_name_error
    (decode : String → Except PyError Polygon) (db : TomnodDB)
    (schema cat_id : String) (max_number : ℕ) (output_file : String)
    (max_score : ℚ) (max_votes : ℤ) (fs : FileStore) :
    target_geojson decode db schema cat_id max_number output_file max_score
        max_votes fs = (fs, some (.nameError "min_score")) :=
  target_geojson_raises decode db schema cat_id max_number output_file
    max_score max_votes fs
